import Mathlib

/-!
Verification of the SnapShelf Site-to-Store Synthesis Pipeline.

Shallow embedding of the JavaScript services in
`backend/src/services/aiScraperService.js` (product extraction),
`backend/src/services/designAnalyzerService.js` (design analysis) and
`backend/src/services/storeBuilderService.js` (template synthesis and
store creation), together with proofs about the embedded definitions.

Modelling conventions:
- JavaScript strings are Lean `String`s (worked on mostly as `List Char`).
- A JavaScript value that may be `undefined`/`null` is an `Option`.
- Code that can throw a runtime error is embedded in `Except String`.
- The external AI completion call and `JSON.parse` are parameters: the
  completion result is an `Except String String` (network error or raw
  content) and the parse step is a function `String → Option JsonVal`
  (`none` models `JSON.parse` throwing on non-JSON content).
-/

set_option maxRecDepth 8192

namespace Snapshelf

/-! ### Character class and string helpers (JavaScript primitives) -/

/-- The regex class `\d` (`[0-9]`), by code point. -/
def isDigitChar (c : Char) : Bool := 48 ≤ c.toNat && c.toNat ≤ 57

/-- A lowercase hex letter `a`-`f`. -/
def isHexLower (c : Char) : Bool := 97 ≤ c.toNat && c.toNat ≤ 102

/-- An uppercase hex letter `A`-`F`. -/
def isHexUpper (c : Char) : Bool := 65 ≤ c.toNat && c.toNat ≤ 70

/-- The regex class `[a-f\d]` with the `i` flag: hex digit, either case. -/
def isHexDigitCI (c : Char) : Bool := isDigitChar c || isHexLower c || isHexUpper c

/-- A digit or lowercase hex letter (what `Number.prototype.toString(16)` emits). -/
def isLowerHexDigit (c : Char) : Bool := isDigitChar c || isHexLower c

/-- The regex class `\s`, restricted to the ASCII whitespace characters
(space, tab, line feed, vertical tab, form feed, carriage return). -/
def isJsSpace (c : Char) : Bool :=
  c.toNat = 32 || c.toNat = 9 || c.toNat = 10 || c.toNat = 11 || c.toNat = 12 || c.toNat = 13

/-- `parseInt` on a string of decimal digits. -/
def decVal (ds : List Char) : Nat := ds.foldl (fun n c => 10 * n + (c.toNat - 48)) 0

/-- Numeric value of one hex digit (either case), as read by `parseInt(x, 16)`. -/
def hexDigitVal (c : Char) : Nat :=
  if isDigitChar c then c.toNat - 48
  else if isHexLower c then c.toNat - 87
  else c.toNat - 55

/-- `parseInt(ab, 16)` on a two-character hex string. -/
def hexPairVal (a b : Char) : Nat := 16 * hexDigitVal a + hexDigitVal b

/-- JavaScript `x || dflt` where `x` is a string or `undefined`:
`undefined` and the empty string are falsy. -/
def jsOrString (o : Option String) (dflt : String) : String :=
  match o with
  | some s => if s = "" then dflt else s
  | none => dflt

/-- JavaScript `x || y` where `x` is an object or `undefined`
(an object is always truthy). -/
def jsOrObj {α : Type} (o : Option α) (dflt : α) : α := o.getD dflt

/-- Interpolation of a possibly-`undefined` value into a template literal. -/
def jsUndefOr (o : Option String) : String :=
  match o with
  | some s => s
  | none => "undefined"

/-- Reading a property of a possibly-`undefined` object: throws a
`TypeError` when the object is `undefined`. -/
def jsGet {α : Type} (o : Option α) : Except String α :=
  match o with
  | some a => Except.ok a
  | none => Except.error "TypeError: Cannot read properties of undefined"

/-- `String.prototype.includes`, on character lists. -/
def jsIncludesL (needle : List Char) : List Char → Bool
  | [] => List.isPrefixOf needle []
  | c :: t => List.isPrefixOf needle (c :: t) || jsIncludesL needle t

/-- `String.prototype.includes`. -/
def jsIncludes (s needle : String) : Bool := jsIncludesL needle.data s.data

/-- `String.prototype.trim` (ASCII whitespace). -/
def jsTrim (cs : List Char) : List Char :=
  ((cs.dropWhile isJsSpace).reverse.dropWhile isJsSpace).reverse

/-! ### `rgbToHex` (designAnalyzerService.js, lines 344-356)

```js
rgbToHex(rgb) {
  if (rgb.startsWith('#')) return rgb;
  const match = rgb.match(/rgba?\((\d+),\s*(\d+),\s*(\d+)/);
  if (!match) return '#000000';
  const hex = (x) => {
    const h = parseInt(x).toString(16);
    return h.length === 1 ? '0' + h : h;
  };
  return '#' + hex(match[1]) + hex(match[2]) + hex(match[3]);
}
```
-/

/-- Attempt to match the regex `rgba?\((\d+),\s*(\d+),\s*(\d+)` at the head of
the character list, returning the three captured digit groups.  The pattern's
greedy `\d+`/`\s*` never need backtracking here because each is followed by a
character (`,` resp. `\d`) disjoint from its own class. -/
def matchRgbaAt (cs : List Char) : Option (List Char × List Char × List Char) :=
  match cs with
  | 'r' :: 'g' :: 'b' :: rest =>
    let rest1 := if rest.head? = some 'a' then rest.tail else rest
    match rest1 with
    | '(' :: r1 =>
      let d1 := r1.takeWhile isDigitChar
      let r2 := r1.dropWhile isDigitChar
      if d1.isEmpty then none else
      match r2 with
      | ',' :: r3 =>
        let r4 := r3.dropWhile isJsSpace
        let d2 := r4.takeWhile isDigitChar
        let r5 := r4.dropWhile isDigitChar
        if d2.isEmpty then none else
        match r5 with
        | ',' :: r6 =>
          let r7 := r6.dropWhile isJsSpace
          let d3 := r7.takeWhile isDigitChar
          if d3.isEmpty then none else some (d1, d2, d3)
        | _ => none
      | _ => none
    | _ => none
  | _ => none

/-- Unanchored (leftmost-match) search for the `rgba?\(...` pattern, as
performed by `String.prototype.match`. -/
def findRgbaMatch : List Char → Option (List Char × List Char × List Char)
  | [] => none
  | c :: cs =>
    match matchRgbaAt (c :: cs) with
    | some r => some r
    | none => findRgbaMatch cs

/-- The local helper `hex(x)`: `parseInt(x).toString(16)`, zero-padded to two
characters when it has a single one. -/
def jsHexPad (n : Nat) : List Char :=
  let h := Nat.toDigits 16 n
  if h.length = 1 then '0' :: h else h

/-- `rgbToHex` from designAnalyzerService.js. -/
def rgbToHex (rgb : String) : String :=
  if rgb.data.head? = some '#' then rgb
  else
    match findRgbaMatch rgb.data with
    | none => "#000000"
    | some (d1, d2, d3) =>
      "#" ++ (jsHexPad (decVal d1)).asString ++ (jsHexPad (decVal d2)).asString
        ++ (jsHexPad (decVal d3)).asString

/-! ### `hexToRgb` (designAnalyzerService.js, lines 368-375)

```js
hexToRgb(hex) {
  const result = /^#?([a-f\d]{2})([a-f\d]{2})([a-f\d]{2})$/i.exec(hex);
  return result ? { r: ..., g: ..., b: ... } : null;
}
```
-/

/-- An RGB channel triple. -/
structure Rgb where
  r : Nat
  g : Nat
  b : Nat
deriving DecidableEq, Repr

/-- `hexToRgb` from designAnalyzerService.js: the anchored regex strips one
optional `#` and requires exactly six case-insensitive hex digits; each
captured pair is decoded with `parseInt(_, 16)`.  `none` models the `null`
return value. -/
def hexToRgb (hex : String) : Option Rgb :=
  let cs := hex.data
  let cs := if cs.head? = some '#' then cs.tail else cs
  match cs with
  | [a, b, c, d, e, f] =>
    if isHexDigitCI a && isHexDigitCI b && isHexDigitCI c && isHexDigitCI d
        && isHexDigitCI e && isHexDigitCI f then
      some { r := hexPairVal a b, g := hexPairVal c d, b := hexPairVal e f }
    else none
  | _ => none

/-- The string `rgb(r, g, b)` that `getComputedStyle` yields for an opaque
color, rendered from the three channel values. -/
def mkRgbString (r g b : Nat) : String :=
  "rgb(" ++ Nat.repr r ++ ", " ++ Nat.repr g ++ ", " ++ Nat.repr b ++ ")"

/-- A `#`-prefixed 6-digit lowercase hex color string. -/
def isHexColorString (s : String) : Bool :=
  match s.data with
  | '#' :: rest => rest.length = 6 && rest.all isLowerHexDigit
  | _ => false

/-- Decode a two-character hex pair, `none` on any other shape (helper
predicate used to state the byte round-trip). -/
def hexPairDecode : List Char → Option Nat
  | [a, b] => some (hexPairVal a b)
  | _ => none

/-! ### Font categorization (designAnalyzerService.js, lines 377-392)

```js
categorizeFontFamily(font) {
  const serif = ['Times', 'Georgia', 'Garamond', 'Serif'];
  const sansSerif = ['Arial', 'Helvetica', 'Sans', 'Roboto', 'Open Sans'];
  const monospace = ['Courier', 'Monaco', 'Consolas', 'Monospace'];
  if (serif.some(s => font.includes(s))) return 'serif';
  if (monospace.some(m => font.includes(m))) return 'monospace';
  return 'sans-serif';
}
```
(The `sansSerif` list is declared but never consulted.)
-/

/-- The `serif` keyword list. -/
def serifKeywords : List String := ["Times", "Georgia", "Garamond", "Serif"]

/-- The `monospace` keyword list. -/
def monospaceKeywords : List String := ["Courier", "Monaco", "Consolas", "Monospace"]

/-- `categorizeFontFamily` from designAnalyzerService.js. -/
def categorizeFontFamily (font : String) : String :=
  if serifKeywords.any (fun s => jsIncludes font s) then "serif"
  else if monospaceKeywords.any (fun m => jsIncludes font m) then "monospace"
  else "sans-serif"

/-- `getFontFallback` from designAnalyzerService.js. -/
def getFontFallback (font : String) : String :=
  let category := categorizeFontFamily font
  if category = "serif" then "Georgia, serif"
  else if category = "monospace" then "Courier New, monospace"
  else "Arial, sans-serif"

/-! ### Color analysis (designAnalyzerService.js, lines 231-250 and 358-366) -/

/-- One entry of the analyzer's processed color list. -/
structure ProcessedColor where
  original : String
  hex : String
  usage : String
deriving DecidableEq, Repr

/-- The color analysis record `{primary, secondary, accent, all}`. -/
structure ColorAnalysis where
  primary : String
  secondary : String
  accent : String
  all : List ProcessedColor
deriving DecidableEq, Repr

/-- `categorizeColor` from designAnalyzerService.js:
```js
const rgb = this.hexToRgb(hex);
const brightness = (rgb.r * 299 + rgb.g * 587 + rgb.b * 114) / 1000;
if (brightness > 200) return 'background';
if (brightness < 50) return 'text';
return 'accent';
```
When `hexToRgb` returned `null`, reading `rgb.r` throws a `TypeError`,
modelled as `Except.error`.  The brightness quotient is exact (`Rat`),
matching the double-precision comparison on these bounded integer inputs. -/
def categorizeColor (hex : String) : Except String String :=
  match hexToRgb hex with
  | none => Except.error "TypeError: Cannot read properties of null"
  | some rgb =>
    let brightness : Rat := ((rgb.r * 299 + rgb.g * 587 + rgb.b * 114 : Nat) : Rat) / 1000
    if brightness > 200 then Except.ok "background"
    else if brightness < 50 then Except.ok "text"
    else Except.ok "accent"

/-- The callback of `colors.map` in `analyzeColors`. -/
def processColor (color : String) : Except String ProcessedColor := do
  let hex := rgbToHex color
  let usage ← categorizeColor hex
  pure { original := color, hex := hex, usage := usage }

/-- `analyzeColors` from designAnalyzerService.js:
```js
const processed = colors.map(color => { ... });
return {
  primary: processed[0]?.hex || '#000000',
  secondary: processed[1]?.hex || '#666666',
  accent: processed[2]?.hex || '#0066cc',
  all: processed
};
```
A `TypeError` thrown inside the `map` callback aborts the whole call. -/
def analyzeColors (colors : List String) : Except String ColorAnalysis := do
  let processed ← colors.mapM processColor
  pure {
    primary := jsOrString ((processed.get? 0).map ProcessedColor.hex) "#000000"
    secondary := jsOrString ((processed.get? 1).map ProcessedColor.hex) "#666666"
    accent := jsOrString ((processed.get? 2).map ProcessedColor.hex) "#0066cc"
    all := processed }

/-! ### Typography analysis (designAnalyzerService.js, lines 252-267) -/

/-- A processed font entry.  The `fallback` property is `Option` because the
hard-coded default entry `{ family: 'Arial', category: 'sans-serif' }` omits
it (reading it then yields `undefined`). -/
structure FontEntry where
  family : String
  category : String
  fallback : Option String
deriving DecidableEq, Repr

/-- The typography analysis record `{heading, body, all}`. -/
structure Typography where
  heading : FontEntry
  body : FontEntry
  all : List FontEntry
deriving DecidableEq, Repr

/-- `font.replace(/['"]/g, '').split(',')[0].trim()`. -/
def cleanFontName (font : String) : String :=
  (jsTrim ((font.data.filter (fun c => !(c = '\'' || c = '"'))).takeWhile (fun c => c ≠ ','))).asString

/-- The default entry used when the font list is too short: note the missing
`fallback` property. -/
def defaultFontEntry : FontEntry := { family := "Arial", category := "sans-serif", fallback := none }

/-- `analyzeTypography` from designAnalyzerService.js:
```js
const processed = fonts.map(font => {
  const cleaned = font.replace(/['"]/g, '').split(',')[0].trim();
  return { family: cleaned, category: ..., fallback: ... };
});
return {
  heading: processed[0] || { family: 'Arial', category: 'sans-serif' },
  body: processed[1] || processed[0] || { family: 'Arial', category: 'sans-serif' },
  all: processed
};
```
-/
def analyzeTypography (fonts : List String) : Typography :=
  let processed := fonts.map (fun font =>
    let cleaned := cleanFontName font
    ({ family := cleaned
       category := categorizeFontFamily cleaned
       fallback := some (getFontFallback cleaned) } : FontEntry))
  { heading := jsOrObj (processed.get? 0) defaultFontEntry
    body := jsOrObj (processed.get? 1) (jsOrObj (processed.get? 0) defaultFontEntry)
    all := processed }

/-! ### Layout analysis (designAnalyzerService.js, lines 269-291) -/

/-- The raw layout flags extracted by the scraper's `extractLayout`. -/
structure LayoutFlags where
  hasHeader : Bool
  hasNav : Bool
  hasMainContent : Bool
  hasFooter : Bool
  headerHeight : Nat
  footerHeight : Nat
deriving DecidableEq, Repr

/-- The analyzer's `layout.structure` record (`structure` is a Lean keyword,
so the embedding names the container field `struct`). -/
structure LayoutStructure where
  header : Bool
  navigation : Bool
  mainContent : Bool
  footer : Bool
deriving DecidableEq, Repr

/-- The analyzer's `layout.dimensions` record. -/
structure LayoutDimensions where
  headerHeight : Nat
  footerHeight : Nat
deriving DecidableEq, Repr

/-- The fixed breakpoints constant. -/
structure Breakpoints where
  mobile : Nat
  tablet : Nat
  desktop : Nat
deriving DecidableEq, Repr

/-- The fixed responsive-design recommendation constants. -/
structure LayoutRecommendations where
  mobileFirst : Bool
  responsiveGrid : String
  breakpoints : Breakpoints
deriving DecidableEq, Repr

/-- The analyzer's layout analysis record. -/
structure LayoutAnalysis where
  struct : LayoutStructure
  dimensions : LayoutDimensions
  recommendations : LayoutRecommendations
deriving DecidableEq, Repr

/-- `analyzeLayout` from designAnalyzerService.js. -/
def analyzeLayout (layout : LayoutFlags) : LayoutAnalysis :=
  { struct :=
      { header := layout.hasHeader
        navigation := layout.hasNav
        mainContent := layout.hasMainContent
        footer := layout.hasFooter }
    dimensions := { headerHeight := layout.headerHeight, footerHeight := layout.footerHeight }
    recommendations :=
      { mobileFirst := true
        responsiveGrid := "flexbox"
        breakpoints := { mobile := 768, tablet := 1024, desktop := 1440 } } }

/-! ### Product structure analysis (designAnalyzerService.js, lines 293-308) -/

/-- A candidate product extracted by the scraper.  `image` and `link` come
from `attr(...)` and may be `undefined`; `name` and `price` come from
`text().trim()` and are always strings (possibly empty). -/
structure Product where
  name : String
  price : String
  image : Option String
  link : Option String
deriving DecidableEq, Repr

/-- The fixed `structure` field names record. -/
structure ProductFieldNames where
  nameField : String
  priceField : String
  imageField : String
  linkField : String
deriving DecidableEq, Repr

/-- The analyzer's product-structure summary. -/
structure ProductsAnalysis where
  count : Nat
  hasImages : Bool
  hasPrices : Bool
  struct : ProductFieldNames
  samples : List Product
deriving DecidableEq, Repr

/-- Truthiness of a string-or-`undefined` value (for `p.image`). -/
def jsTruthyOptStr (o : Option String) : Bool :=
  match o with
  | some s => s ≠ ""
  | none => false

/-- `analyzeProductStructure` from designAnalyzerService.js: returns `null`
for a missing or empty candidate list. -/
def analyzeProductStructure (products : List Product) : Option ProductsAnalysis :=
  if products.isEmpty then none
  else some
    { count := products.length
      hasImages := products.any (fun p => jsTruthyOptStr p.image)
      hasPrices := products.any (fun p => p.price ≠ "")
      struct := { nameField := "name", priceField := "price", imageField := "image", linkField := "link" }
      samples := products.take 3 }

/-! ### AI recommendations (designAnalyzerService.js, lines 310-342) -/

/-- A JSON value, as produced by `JSON.parse`. -/
inductive JsonVal where
  | null : JsonVal
  | bool : Bool → JsonVal
  | num : Rat → JsonVal
  | str : String → JsonVal
  | arr : List JsonVal → JsonVal
  | obj : List (String × JsonVal) → JsonVal

/-- The fixed fallback recommendation object returned from the `catch` block. -/
def fallbackRecommendations : JsonVal :=
  JsonVal.obj
    [("improvements", JsonVal.arr
        [JsonVal.str "Modern design patterns", JsonVal.str "Better color contrast",
         JsonVal.str "Clear CTAs"]),
     ("ux", JsonVal.arr
        [JsonVal.str "Simplified navigation", JsonVal.str "Faster load times",
         JsonVal.str "Better mobile experience"]),
     ("mobile", JsonVal.arr
        [JsonVal.str "Touch-friendly buttons", JsonVal.str "Responsive images",
         JsonVal.str "Optimized fonts"]),
     ("conversion", JsonVal.arr
        [JsonVal.str "Clear value proposition", JsonVal.str "Trust badges",
         JsonVal.str "Simplified checkout"])]

/-- `getAIRecommendations` from designAnalyzerService.js.  The external
completion call is the parameter `completion` (`Except.error` = the request
threw); `jsonParse` models `JSON.parse` on the returned content (`none` =
parse threw on non-JSON).  Both throws are caught by the `try/catch`, which
returns the fixed fallback object; the function itself never throws. -/
def getAIRecommendations (completion : Except String String)
    (jsonParse : String → Option JsonVal) : JsonVal :=
  match completion with
  | Except.error _ => fallbackRecommendations
  | Except.ok content =>
    match jsonParse content with
    | some j => j
    | none => fallbackRecommendations

/-! ### `analyzeDesign` (designAnalyzerService.js, lines 214-229) -/

/-- The scraper's `designData` record (screenshots and meta data do not
influence the analyzer and are omitted except for the fields it reads). -/
structure DesignData where
  colors : List String
  fonts : List String
  layout : LayoutFlags
deriving DecidableEq, Repr

/-- The `ScrapedSite` input of the analyzer (binary screenshot buffers and
the capture timestamp are not read by `analyzeDesign` and are omitted). -/
structure ScrapedSite where
  url : String
  html : String
  design : DesignData
  products : List Product
deriving DecidableEq, Repr

/-- The analyzer's output record. -/
structure DesignAnalysis where
  colors : ColorAnalysis
  typography : Typography
  layout : LayoutAnalysis
  products : Option ProductsAnalysis
  aiRecommendations : JsonVal

/-- `analyzeDesign` from designAnalyzerService.js:
```js
const analysis = {
  colors: await this.analyzeColors(scrapedData.design.colors),
  typography: this.analyzeTypography(scrapedData.design.fonts),
  layout: await this.analyzeLayout(scrapedData.design.layout),
  products: this.analyzeProductStructure(scrapedData.products),
  aiRecommendations: await this.getAIRecommendations(scrapedData)
};
return analysis;
```
The surrounding `try/catch` logs and rethrows, so an error thrown by
`analyzeColors` propagates to the caller. -/
def analyzeDesign (scrapedData : ScrapedSite) (completion : Except String String)
    (jsonParse : String → Option JsonVal) : Except String DesignAnalysis := do
  let colors ← analyzeColors scrapedData.design.colors
  pure
    { colors := colors
      typography := analyzeTypography scrapedData.design.fonts
      layout := analyzeLayout scrapedData.design.layout
      products := analyzeProductStructure scrapedData.products
      aiRecommendations := getAIRecommendations completion jsonParse }

/-- The deterministic part of a `DesignAnalysis`: every field except
`aiRecommendations`. -/
def DesignAnalysis.core (a : DesignAnalysis) :
    ColorAnalysis × Typography × LayoutAnalysis × Option ProductsAnalysis :=
  (a.colors, a.typography, a.layout, a.products)

/-! ### Product extraction (aiScraperService.js, lines 155-182)

```js
const products = [];
const productSelectors = [
  '.product', '.product-item', '.product-card',
  '[itemtype*="Product"]', '[data-product]'
];
for (const selector of productSelectors) {
  const items = $(selector).slice(0, 10); // Get first 10 products
  if (items.length > 0) {
    items.each((i, el) => { products.push({ name: ..., price: ..., image: ..., link: ... }); });
    break;
  }
}
return products;
```
-/

/-- The five selector patterns tried by `extractProducts`. -/
inductive Selector where
  | product : Selector
  | productItem : Selector
  | productCard : Selector
  | itemtypeProduct : Selector
  | dataProduct : Selector
deriving DecidableEq, Repr

/-- A DOM element, abstracted to what `extractProducts` observes of it:
which of the five selector patterns it matches, and the values its
name/price/image/link sub-queries produce. -/
structure DomElement where
  matchesProduct : Bool
  matchesProductItem : Bool
  matchesProductCard : Bool
  matchesItemtypeProduct : Bool
  matchesDataProduct : Bool
  name : String
  price : String
  image : Option String
  link : Option String
deriving DecidableEq, Repr

/-- Whether an element matches a selector pattern. -/
def matchesSelector (el : DomElement) : Selector → Bool
  | Selector.product => el.matchesProduct
  | Selector.productItem => el.matchesProductItem
  | Selector.productCard => el.matchesProductCard
  | Selector.itemtypeProduct => el.matchesItemtypeProduct
  | Selector.dataProduct => el.matchesDataProduct

/-- The source's selector order:
`['.product', '.product-item', '.product-card', '[itemtype*="Product"]', '[data-product]']`. -/
def productSelectors : List Selector :=
  [Selector.product, Selector.productItem, Selector.productCard,
   Selector.itemtypeProduct, Selector.dataProduct]

/-- The `items.each` callback: build a candidate product from one element. -/
def extractFields (el : DomElement) : Product :=
  { name := el.name, price := el.price, image := el.image, link := el.link }

/-- The `for (const selector of productSelectors)` loop with its `break`. -/
def extractLoop (dom : List DomElement) : List Selector → List Product
  | [] => []
  | sel :: rest =>
    let items := (dom.filter (fun el => matchesSelector el sel)).take 10
    if items.length > 0 then items.map extractFields else extractLoop dom rest

/-- `extractProducts` from aiScraperService.js. -/
def extractProducts (dom : List DomElement) : List Product :=
  extractLoop dom productSelectors

/-- Modelled from the spec: the claim's selector order, with the
itemtype/Product microdata pattern tried first.  Used only to compare the
claimed priority order against the source's order. -/
def claimProductSelectors : List Selector :=
  [Selector.itemtypeProduct, Selector.product, Selector.productItem,
   Selector.productCard, Selector.dataProduct]

/-- Product extraction under the claim's (microdata-first) selector order. -/
def claimOrderExtractProducts (dom : List DomElement) : List Product :=
  extractLoop dom claimProductSelectors

/-! ### Store builder (storeBuilderService.js) -/

/-- A component appended by `selectComponents` (heterogeneous JS objects). -/
inductive Component where
  | productGrid : (columns : Nat) → (showPrice showImage : Bool) → Component
  | navigation : (style position : String) → Component
  | search : (position style : String) → Component
  | cart : (position style : String) → Component
deriving DecidableEq, Repr

/-- The JS object passed to the builder as `analysis`/`customizations`.
Every field is `Option` because the caller may omit any of them (a missing
property reads as `undefined`).  `fonts` and `theme` are only read by
`createStore`; a `DesignAnalysis` does not carry them. -/
structure AnalysisInput where
  colors : Option ColorAnalysis
  typography : Option Typography
  layout : Option LayoutAnalysis
  products : Option ProductsAnalysis
  fonts : Option Typography
  theme : Option String
deriving DecidableEq, Repr

/-- `selectBaseTemplate` from storeBuilderService.js:
```js
if (analysis.layout.structure.header && analysis.layout.structure.footer) {
  return 'modern';
}
return 'minimal';
```
Reading `.structure` of a missing `layout` throws. -/
def selectBaseTemplate (analysis : AnalysisInput) : Except String String := do
  let layout ← jsGet analysis.layout
  if layout.struct.header && layout.struct.footer then pure "modern" else pure "minimal"

/-- `selectComponents` from storeBuilderService.js: product grid only when
`analysis.products && analysis.products.count > 0`, navigation only when the
layout structure reports it, then always a search and a cart component. -/
def selectComponents (analysis : AnalysisInput) : Except String (List Component) := do
  let gridPart : List Component :=
    match analysis.products with
    | some p => if p.count > 0 then [Component.productGrid 4 p.hasPrices p.hasImages] else []
    | none => []
  let layout ← jsGet analysis.layout
  let navPart : List Component :=
    if layout.struct.navigation then [Component.navigation "horizontal" "header"] else []
  pure (gridPart ++ navPart ++ [Component.search "header" "inline", Component.cart "header" "icon"])

/-- Literal segment 0 of the CSS template. -/
def cssPart0 : String :=
  "
      :root \x7b
        --color-primary: "

/-- Literal segment 1 of the CSS template. -/
def cssPart1 : String :=
  ";
        --color-secondary: "

/-- Literal segment 2 of the CSS template. -/
def cssPart2 : String :=
  ";
        --color-accent: "

/-- Literal segment 3 of the CSS template. -/
def cssPart3 : String :=
  ";
        --color-text: #333;
        --color-background: #fff;
        --font-heading: "

/-- Literal segment 4 of the CSS template. -/
def cssPart4 : String :=
  ", "

/-- Literal segment 5 of the CSS template. -/
def cssPart5 : String :=
  ";
        --font-body: "

/-- Literal segment 6 of the CSS template. -/
def cssPart6 : String :=
  ", "

/-- Literal segment 7 of the CSS template. -/
def cssPart7 : String :=
  ";
      \x7d

      * \x7b
        margin: 0;
        padding: 0;
        box-sizing: border-box;
      \x7d

      body \x7b
        font-family: var(--font-body);
        color: var(--color-text);
        background-color: var(--color-background);
        line-height: 1.6;
      \x7d

      h1, h2, h3, h4, h5, h6 \x7b
        font-family: var(--font-heading);
        line-height: 1.2;
        margin-bottom: 1rem;
      \x7d

      .container \x7b
        max-width: 1200px;
        margin: 0 auto;
        padding: 0 20px;
      \x7d

      /* Header */
      .header \x7b
        background: var(--color-background);
        border-bottom: 1px solid #eee;
        padding: 1rem 0;
        position: sticky;
        top: 0;
        z-index: 100;
      \x7d

      .header-content \x7b
        display: flex;
        justify-content: space-between;
        align-items: center;
      \x7d

      /* Navigation */
      .nav \x7b
        display: flex;
        gap: 2rem;
      \x7d

      .nav a \x7b
        color: var(--color-text);
        text-decoration: none;
        transition: color 0.3s;
      \x7d

      .nav a:hover \x7b
        color: var(--color-primary);
      \x7d

      /* Product Grid */
      .product-grid \x7b
        display: grid;
        grid-template-columns: repeat(auto-fill, minmax(250px, 1fr));
        gap: 2rem;
        padding: 2rem 0;
      \x7d

      .product-card \x7b
        background: white;
        border-radius: 8px;
        overflow: hidden;
        transition: transform 0.3s, box-shadow 0.3s;
      \x7d

      .product-card:hover \x7b
        transform: translateY(-5px);
        box-shadow: 0 5px 20px rgba(0,0,0,0.1);
      \x7d

      .product-image \x7b
        width: 100%;
        height: 300px;
        object-fit: cover;
      \x7d

      .product-info \x7b
        padding: 1rem;
      \x7d

      .product-name \x7b
        font-size: 1.1rem;
        margin-bottom: 0.5rem;
      \x7d

      .product-price \x7b
        color: var(--color-primary);
        font-size: 1.2rem;
        font-weight: bold;
      \x7d

      /* Buttons */
      .btn \x7b
        display: inline-block;
        padding: 0.75rem 1.5rem;
        background: var(--color-primary);
        color: white;
        text-decoration: none;
        border-radius: 4px;
        transition: background 0.3s;
        border: none;
        cursor: pointer;
      \x7d

      .btn:hover \x7b
        background: var(--color-secondary);
      \x7d

      /* Footer */
      .footer \x7b
        background: #333;
        color: white;
        padding: 3rem 0 1rem;
        margin-top: 4rem;
      \x7d

      .footer-content \x7b
        display: grid;
        grid-template-columns: repeat(auto-fit, minmax(250px, 1fr));
        gap: 2rem;
        margin-bottom: 2rem;
      \x7d

      /* Responsive */
      @media (max-width: 768px) \x7b
        .header-content \x7b
          flex-direction: column;
          gap: 1rem;
        \x7d

        .nav \x7b
          flex-direction: column;
          text-align: center;
        \x7d

        .product-grid \x7b
          grid-template-columns: repeat(auto-fill, minmax(150px, 1fr));
          gap: 1rem;
        \x7d
      \x7d
    "


/-- The CSS template literal with the seven `${...}` interpolations bound. -/
def cssTemplate (colors : ColorAnalysis) (typography : Typography) : String :=
  cssPart0 ++ colors.primary ++ cssPart1 ++ colors.secondary ++ cssPart2 ++ colors.accent
    ++ cssPart3 ++ typography.heading.family ++ cssPart4 ++ jsUndefOr typography.heading.fallback
    ++ cssPart5 ++ typography.body.family ++ cssPart6 ++ jsUndefOr typography.body.fallback
    ++ cssPart7

/-- `generateCSS` from storeBuilderService.js: destructures
`const { colors, typography } = analysis` and interpolates
`colors.primary/secondary/accent` and the two font family/fallback pairs
into the fixed stylesheet skeleton.  A missing `colors` or `typography`
object makes the first property access throw. -/
def generateCSS (analysis : AnalysisInput) : Except String String := do
  let colors ← jsGet analysis.colors
  let typography ← jsGet analysis.typography
  pure (cssTemplate colors typography)

/-- The fixed HTML skeleton returned by `generateHTML` (placeholder tokens intentionally unresolved). -/
def generatedHTML : String :=
  "
      <!DOCTYPE html>
      <html lang=\"en\">
      <head>
        <meta charset=\"UTF-8\">
        <meta name=\"viewport\" content=\"width=device-width, initial-scale=1.0\">
        <title>\x7b\x7bstoreName\x7d\x7d</title>
        <meta name=\"description\" content=\"\x7b\x7bstoreDescription\x7d\x7d\">
        <link rel=\"stylesheet\" href=\"/css/store.css\">
      </head>
      <body>
        <header class=\"header\">
          <div class=\"container\">
            <div class=\"header-content\">
              <div class=\"logo\">
                <h1>\x7b\x7bstoreName\x7d\x7d</h1>
              </div>
              <nav class=\"nav\">
                \x7b\x7b#navigation\x7d\x7d
                <a href=\"\x7b\x7burl\x7d\x7d\">\x7b\x7blabel\x7d\x7d</a>
                \x7b\x7b/navigation\x7d\x7d
              </nav>
              <div class=\"header-actions\">
                <button class=\"search-btn\">Search</button>
                <button class=\"cart-btn\">Cart (0)</button>
              </div>
            </div>
          </div>
        </header>

        <main class=\"main\">
          <section class=\"hero\">
            <div class=\"container\">
              <h2>Welcome to \x7b\x7bstoreName\x7d\x7d</h2>
              <p>\x7b\x7bheroText\x7d\x7d</p>
            </div>
          </section>

          <section class=\"products\">
            <div class=\"container\">
              <h2>Featured Products</h2>
              <div class=\"product-grid\">
                \x7b\x7b#products\x7d\x7d
                <div class=\"product-card\">
                  <img src=\"\x7b\x7bimage\x7d\x7d\" alt=\"\x7b\x7bname\x7d\x7d\" class=\"product-image\">
                  <div class=\"product-info\">
                    <h3 class=\"product-name\">\x7b\x7bname\x7d\x7d</h3>
                    <p class=\"product-price\">\x7b\x7bprice\x7d\x7d</p>
                    <button class=\"btn\">Add to Cart</button>
                  </div>
                </div>
                \x7b\x7b/products\x7d\x7d
              </div>
            </div>
          </section>
        </main>

        <footer class=\"footer\">
          <div class=\"container\">
            <div class=\"footer-content\">
              <div class=\"footer-section\">
                <h3>About Us</h3>
                <p>\x7b\x7baboutText\x7d\x7d</p>
              </div>
              <div class=\"footer-section\">
                <h3>Quick Links</h3>
                <ul>
                  \x7b\x7b#footerLinks\x7d\x7d
                  <li><a href=\"\x7b\x7burl\x7d\x7d\">\x7b\x7blabel\x7d\x7d</a></li>
                  \x7b\x7b/footerLinks\x7d\x7d
                </ul>
              </div>
              <div class=\"footer-section\">
                <h3>Contact</h3>
                <p>\x7b\x7bcontactInfo\x7d\x7d</p>
              </div>
            </div>
            <div class=\"footer-bottom\">
              <p>&copy; 2024 \x7b\x7bstoreName\x7d\x7d. All rights reserved.</p>
            </div>
          </div>
        </footer>

        <script src=\"/js/store.js\"></script>
      </body>
      </html>
    "

/-- The header object of a catalog template's `structure`. -/
structure CatalogHeader where
  type : String
  components : List String
deriving DecidableEq, Repr

/-- The hero object of a catalog template's `structure` (only `modern` has one). -/
structure CatalogHero where
  type : String
  height : String
deriving DecidableEq, Repr

/-- The footer object of a catalog template's `structure`. -/
structure CatalogFooter where
  columns : Nat
  components : List String
deriving DecidableEq, Repr

/-- A catalog template's `structure` object.  No catalog entry defines a
`layout` property, but `createStore` reads `template.structure?.layout`, so
the (always absent) property is modelled explicitly. -/
structure CatalogStructure where
  header : CatalogHeader
  hero : Option CatalogHero
  sections : List String
  footer : CatalogFooter
  layout : Option String
deriving DecidableEq, Repr

/-- The `customizations` object of a template produced by `generateTemplate`. -/
structure TemplateCustomizations where
  colors : Option ColorAnalysis
  typography : Option Typography
  layout : Option LayoutAnalysis
  components : List Component
deriving DecidableEq, Repr

/-- A template object: either a catalog entry (set in `loadTemplates`) or a
generated one (`generateTemplate`).  The two kinds populate disjoint subsets
of the properties; absent properties are `none`.  In particular the catalog
entries have no `customizations` property. -/
structure TemplateObj where
  id : String
  name : String
  description : Option String
  preview : Option String
  features : Option (List String)
  struct : Option CatalogStructure
  baseTemplate : Option String
  customizations : Option TemplateCustomizations
  css : Option String
  html : Option String
deriving DecidableEq, Repr

/-- The `modern` catalog entry from `loadTemplates`. -/
def modernTemplate : TemplateObj :=
  { id := "modern"
    name := "Modern Store"
    description := some "Clean and modern e-commerce template"
    preview := some "/templates/modern/preview.jpg"
    features := some ["Responsive", "SEO Optimized", "Fast Loading"]
    struct := some
      { header := { type := "sticky", components := ["logo", "navigation", "search", "cart"] }
        hero := some { type := "slider", height := "600px" }
        sections := ["featured-products", "categories", "testimonials", "newsletter"]
        footer := { columns := 4, components := ["about", "links", "contact", "social"] }
        layout := none }
    baseTemplate := none
    customizations := none
    css := none
    html := none }

/-- The `minimal` catalog entry from `loadTemplates`. -/
def minimalTemplate : TemplateObj :=
  { id := "minimal"
    name := "Minimal Store"
    description := some "Simple and elegant design"
    preview := some "/templates/minimal/preview.jpg"
    features := some ["Minimalist", "Typography Focus", "White Space"]
    struct := some
      { header := { type := "simple", components := ["logo", "navigation", "cart"] }
        hero := none
        sections := ["products-grid", "about", "contact"]
        footer := { columns := 2, components := ["copyright", "social"] }
        layout := none }
    baseTemplate := none
    customizations := none
    css := none
    html := none }

/-- `this.templates.get(id)` over the catalog populated by `loadTemplates`. -/
def templatesGet (id : String) : Option TemplateObj :=
  if id = "modern" then some modernTemplate
  else if id = "minimal" then some minimalTemplate
  else none

/-- `generateTemplate` from storeBuilderService.js.  `nowMs` stands for
`Date.now()`.  The object literal evaluates `selectBaseTemplate`, then
`selectComponents`, then `generateCSS`, then `generateHTML`, in that order;
the first to throw aborts the call. -/
def generateTemplate (nowMs : Nat) (analysis : AnalysisInput) : Except String TemplateObj := do
  let base ← selectBaseTemplate analysis
  let comps ← selectComponents analysis
  let css ← generateCSS analysis
  pure
    { id := "custom-" ++ Nat.repr nowMs
      name := "Custom Generated Template"
      description := none
      preview := none
      features := none
      struct := none
      baseTemplate := some base
      customizations := some
        { colors := analysis.colors
          typography := analysis.typography
          layout := analysis.layout
          components := comps }
      css := some css
      html := some generatedHTML }

/-- The `storeInfo` argument of `createStore`: only `name` is required. -/
structure StoreInfo where
  name : String
  subdomain : Option String
  sourceUrl : Option String
  logo : Option String
  favicon : Option String
  language : Option String
  currency : Option String
  timezone : Option String
  seoTitle : Option String
  seoDescription : Option String
  keywords : Option (List String)
deriving DecidableEq, Repr

/-- The `template.customizations` sub-record of a store record. -/
structure StoreCustomizations where
  colors : Option ColorAnalysis
  fonts : Option Typography
  logo : Option String
  favicon : Option String
deriving DecidableEq, Repr

/-- The `template` sub-record of a store record. -/
structure StoreTemplateField where
  sourceUrl : Option String
  analyzedData : AnalysisInput
  customizations : StoreCustomizations
deriving DecidableEq, Repr

/-- The `design` sub-record of a store record. -/
structure StoreDesign where
  layout : String
  theme : String
  components : List Component
deriving DecidableEq, Repr

/-- The `settings` sub-record of a store record. -/
structure StoreSettings where
  language : String
  currency : String
  timezone : String
deriving DecidableEq, Repr

/-- The `seo` sub-record of a store record. -/
structure StoreSeo where
  title : String
  description : String
  keywords : List String
deriving DecidableEq, Repr

/-- The store record handed to the `Store` model constructor. -/
structure StoreRecord where
  userId : String
  name : String
  subdomain : String
  template : StoreTemplateField
  design : StoreDesign
  settings : StoreSettings
  seo : StoreSeo
  status : String
deriving DecidableEq, Repr

/-- `storeInfo.name.toLowerCase().replace(/[^a-z0-9]/g, '')`. -/
def jsSlugify (name : String) : String :=
  ((name.toLower).data.filter
    (fun c => (97 ≤ c.toNat && c.toNat ≤ 122) || (48 ≤ c.toNat && c.toNat ≤ 57))).asString

/-- `createStore` from storeBuilderService.js.

```js
const template = this.templates.get(templateId) || await this.generateTemplate(customizations);
const store = new Store({
  userId,
  name: storeInfo.name,
  subdomain: storeInfo.subdomain || storeInfo.name.toLowerCase().replace(/[^a-z0-9]/g, ''),
  template: { sourceUrl, analyzedData: customizations,
    customizations: {
      colors: customizations.colors || template.customizations.colors,
      fonts: customizations.fonts || template.customizations.typography,
      logo: storeInfo.logo, favicon: storeInfo.favicon } },
  design: { layout: template.structure?.layout || 'single-column',
            theme: customizations.theme || 'light',
            components: template.customizations.components },
  settings: ..., seo: ..., status: 'draft'
});
```

The embedded definition evaluates the field initializers in source order with
JavaScript short-circuiting: `customizations.colors || template.customizations.colors`
only dereferences `template.customizations` when the left operand is falsy,
while `design.components` always dereferences it.  Persistence
(`store.save()`) and the file-generation side effect are external and not
modelled; the function yields the record passed to the model constructor. -/
def createStore (nowMs : Nat) (userId : String) (templateId : Option String)
    (customizations : AnalysisInput) (storeInfo : StoreInfo) : Except String StoreRecord := do
  let template ← match templateId with
    | some id =>
      match templatesGet id with
      | some t => pure t
      | none => generateTemplate nowMs customizations
    | none => generateTemplate nowMs customizations
  let subdomain := jsOrString storeInfo.subdomain (jsSlugify storeInfo.name)
  let czColors ← match customizations.colors with
    | some c => pure (some c)
    | none => do
      let tc ← jsGet template.customizations
      pure tc.colors
  let czFonts ← match customizations.fonts with
    | some f => pure (some f)
    | none => do
      let tc ← jsGet template.customizations
      pure tc.typography
  let designLayout := jsOrString (template.struct.bind CatalogStructure.layout) "single-column"
  let theme := jsOrString customizations.theme "light"
  let tcComponents ← jsGet template.customizations
  pure
    { userId := userId
      name := storeInfo.name
      subdomain := subdomain
      template :=
        { sourceUrl := storeInfo.sourceUrl
          analyzedData := customizations
          customizations :=
            { colors := czColors, fonts := czFonts
              logo := storeInfo.logo, favicon := storeInfo.favicon } }
      design :=
        { layout := designLayout, theme := theme, components := tcComponents.components }
      settings :=
        { language := jsOrString storeInfo.language "en"
          currency := jsOrString storeInfo.currency "USD"
          timezone := jsOrString storeInfo.timezone "UTC" }
      seo :=
        { title := jsOrString storeInfo.seoTitle storeInfo.name
          description := jsOrString storeInfo.seoDescription ("Welcome to " ++ storeInfo.name)
          keywords := storeInfo.keywords.getD [] }
      status := "draft" }

/-! ### Derived constants and concrete sample inputs used by the theorems -/

/-- `cssPart3` without its trailing custom-property name (used to locate the
rendered `--font-heading` value inside the stylesheet). -/
def cssPart3Pre : String :=
  ";
        --color-text: #333;
        --color-background: #fff;
        "

/-- `cssPart7` without its leading semicolon. -/
def cssPart7Tail : String :=
  "
      \x7d

      * \x7b
        margin: 0;
        padding: 0;
        box-sizing: border-box;
      \x7d

      body \x7b
        font-family: var(--font-body);
        color: var(--color-text);
        background-color: var(--color-background);
        line-height: 1.6;
      \x7d

      h1, h2, h3, h4, h5, h6 \x7b
        font-family: var(--font-heading);
        line-height: 1.2;
        margin-bottom: 1rem;
      \x7d

      .container \x7b
        max-width: 1200px;
        margin: 0 auto;
        padding: 0 20px;
      \x7d

      /* Header */
      .header \x7b
        background: var(--color-background);
        border-bottom: 1px solid #eee;
        padding: 1rem 0;
        position: sticky;
        top: 0;
        z-index: 100;
      \x7d

      .header-content \x7b
        display: flex;
        justify-content: space-between;
        align-items: center;
      \x7d

      /* Navigation */
      .nav \x7b
        display: flex;
        gap: 2rem;
      \x7d

      .nav a \x7b
        color: var(--color-text);
        text-decoration: none;
        transition: color 0.3s;
      \x7d

      .nav a:hover \x7b
        color: var(--color-primary);
      \x7d

      /* Product Grid */
      .product-grid \x7b
        display: grid;
        grid-template-columns: repeat(auto-fill, minmax(250px, 1fr));
        gap: 2rem;
        padding: 2rem 0;
      \x7d

      .product-card \x7b
        background: white;
        border-radius: 8px;
        overflow: hidden;
        transition: transform 0.3s, box-shadow 0.3s;
      \x7d

      .product-card:hover \x7b
        transform: translateY(-5px);
        box-shadow: 0 5px 20px rgba(0,0,0,0.1);
      \x7d

      .product-image \x7b
        width: 100%;
        height: 300px;
        object-fit: cover;
      \x7d

      .product-info \x7b
        padding: 1rem;
      \x7d

      .product-name \x7b
        font-size: 1.1rem;
        margin-bottom: 0.5rem;
      \x7d

      .product-price \x7b
        color: var(--color-primary);
        font-size: 1.2rem;
        font-weight: bold;
      \x7d

      /* Buttons */
      .btn \x7b
        display: inline-block;
        padding: 0.75rem 1.5rem;
        background: var(--color-primary);
        color: white;
        text-decoration: none;
        border-radius: 4px;
        transition: background 0.3s;
        border: none;
        cursor: pointer;
      \x7d

      .btn:hover \x7b
        background: var(--color-secondary);
      \x7d

      /* Footer */
      .footer \x7b
        background: #333;
        color: white;
        padding: 3rem 0 1rem;
        margin-top: 4rem;
      \x7d

      .footer-content \x7b
        display: grid;
        grid-template-columns: repeat(auto-fit, minmax(250px, 1fr));
        gap: 2rem;
        margin-bottom: 2rem;
      \x7d

      /* Responsive */
      @media (max-width: 768px) \x7b
        .header-content \x7b
          flex-direction: column;
          gap: 1rem;
        \x7d

        .nav \x7b
          flex-direction: column;
          text-align: center;
        \x7d

        .product-grid \x7b
          grid-template-columns: repeat(auto-fill, minmax(150px, 1fr));
          gap: 1rem;
        \x7d
      \x7d
    "

/-- Layout flags with none of the landmarks present. -/
def plainLayoutFlags : LayoutFlags :=
  { hasHeader := false, hasNav := false, hasMainContent := false, hasFooter := false
    headerHeight := 0, footerHeight := 0 }

/-- A scraped site whose only collected color is the 3-digit hex `#abc`. -/
def shortHexSite : ScrapedSite :=
  { url := "https://example.com"
    html := ""
    design := { colors := ["#abc"], fonts := [], layout := plainLayoutFlags }
    products := [] }

/-- A scraped site with empty color and font lists. -/
def emptySignalsSite : ScrapedSite :=
  { url := "https://example.com"
    html := ""
    design := { colors := [], fonts := [], layout := plainLayoutFlags }
    products := [] }

/-- A DOM element matched only by the `[itemtype*="Product"]` pattern. -/
def microdataOnlyElement : DomElement :=
  { matchesProduct := false, matchesProductItem := false, matchesProductCard := false
    matchesItemtypeProduct := true, matchesDataProduct := false
    name := "Microdata Product", price := "$1", image := none, link := none }

/-- A DOM element matched only by the `.product` pattern. -/
def classOnlyElement : DomElement :=
  { matchesProduct := true, matchesProductItem := false, matchesProductCard := false
    matchesItemtypeProduct := false, matchesDataProduct := false
    name := "Class Product", price := "$2", image := none, link := none }

/-- A DOM containing one microdata-only and one class-only product element. -/
def mixedSelectorsDom : List DomElement := [microdataOnlyElement, classOnlyElement]

/-- A DOM element matched only by the `.product-card` pattern. -/
def cardOnlyElement : DomElement :=
  { matchesProduct := false, matchesProductItem := false, matchesProductCard := true
    matchesItemtypeProduct := false, matchesDataProduct := false
    name := "Card Product", price := "$3", image := some "/img.png", link := some "/p/3" }

/-- A one-element DOM matched only by `.product-card`. -/
def cardOnlyDom : List DomElement := [cardOnlyElement]

/-- A layout analysis with header and footer present and navigation absent. -/
def headerFooterLayout : LayoutAnalysis :=
  analyzeLayout
    { hasHeader := true, hasNav := false, hasMainContent := true, hasFooter := true
      headerHeight := 80, footerHeight := 60 }

/-- A layout analysis with navigation present but no footer. -/
def noFooterLayout : LayoutAnalysis :=
  analyzeLayout
    { hasHeader := true, hasNav := true, hasMainContent := true, hasFooter := false
      headerHeight := 80, footerHeight := 0 }

/-- A sample color analysis. -/
def sampleColors : ColorAnalysis :=
  { primary := "#111111", secondary := "#222222", accent := "#333333", all := [] }

/-- A sample product-structure summary with three products. -/
def sampleProductsSummary : ProductsAnalysis :=
  { count := 3, hasImages := false, hasPrices := true
    struct := { nameField := "name", priceField := "price", imageField := "image", linkField := "link" }
    samples := [] }

/-- An analysis input with header+footer layout and no products. -/
def headerFooterInput : AnalysisInput :=
  { colors := none, typography := none, layout := some headerFooterLayout
    products := none, fonts := none, theme := none }

/-- An analysis input with a footerless layout. -/
def noFooterInput : AnalysisInput :=
  { colors := none, typography := none, layout := some noFooterLayout
    products := none, fonts := none, theme := none }

/-- An analysis input with products present and navigation absent. -/
def gridNoNavInput : AnalysisInput :=
  { colors := none, typography := none, layout := some headerFooterLayout
    products := some sampleProductsSummary, fonts := none, theme := none }

/-- A complete customizations argument (colors, fonts and theme all supplied). -/
def fullCustomizations : AnalysisInput :=
  { colors := some sampleColors
    typography := some (analyzeTypography [])
    layout := some headerFooterLayout
    products := none
    fonts := some (analyzeTypography [])
    theme := some "dark" }

/-- A store-info argument with only the mandatory name supplied. -/
def sampleStoreInfo : StoreInfo :=
  { name := "My Shop!", subdomain := none, sourceUrl := none, logo := none, favicon := none
    language := none, currency := none, timezone := none
    seoTitle := none, seoDescription := none, keywords := none }

/-! ## Theorems -/

/-- C3: for every input on which the AI completion call throws
(`Except.error`) or returns content that `JSON.parse` rejects,
`getAIRecommendations` returns (never raises to its caller) exactly the
fixed four-category fallback object with keys improvements, ux, mobile and
conversion, each holding its specific fixed three-item list. -/
theorem getAIRecommendations_fallback_exact (completion : Except String String)
    (jsonParse : String → Option JsonVal)
    (h : (∃ e, completion = Except.error e) ∨
         (∃ s, completion = Except.ok s ∧ jsonParse s = none)) :
    getAIRecommendations completion jsonParse =
      JsonVal.obj
        [("improvements", JsonVal.arr
            [JsonVal.str "Modern design patterns", JsonVal.str "Better color contrast",
             JsonVal.str "Clear CTAs"]),
         ("ux", JsonVal.arr
            [JsonVal.str "Simplified navigation", JsonVal.str "Faster load times",
             JsonVal.str "Better mobile experience"]),
         ("mobile", JsonVal.arr
            [JsonVal.str "Touch-friendly buttons", JsonVal.str "Responsive images",
             JsonVal.str "Optimized fonts"]),
         ("conversion", JsonVal.arr
            [JsonVal.str "Clear value proposition", JsonVal.str "Trust badges",
             JsonVal.str "Simplified checkout"])] := by
  rcases h with ⟨e, rfl⟩ | ⟨s, rfl, hs⟩
  · rfl
  · simp only [getAIRecommendations, hs]
    rfl

/-- Witness for C3: both failure modes at concrete inputs. -/
theorem getAIRecommendations_fallback_exact_witness :
    getAIRecommendations (Except.error "ECONNREFUSED") (fun _ => none)
        = getAIRecommendations (Except.ok "<html>gateway timeout</html>") (fun _ => none) ∧
    getAIRecommendations (Except.error "ECONNREFUSED") (fun _ => none) = fallbackRecommendations := by
  have h1 := getAIRecommendations_fallback_exact (Except.error "ECONNREFUSED") (fun _ => none)
    (Or.inl ⟨"ECONNREFUSED", rfl⟩)
  have h2 := getAIRecommendations_fallback_exact (Except.ok "<html>gateway timeout</html>")
    (fun _ => none) (Or.inr ⟨"<html>gateway timeout</html>", rfl, rfl⟩)
  exact ⟨h1.trans h2.symm, h1.trans rfl⟩

/-- C5: two runs of `analyzeDesign` on the same `ScrapedSite` but with
arbitrary (possibly different) outcomes of the external AI completion call
agree on every field of the result except `aiRecommendations`. -/
theorem analyzeDesign_deterministic_except_ai (s : ScrapedSite)
    (c1 c2 : Except String String) (p1 p2 : String → Option JsonVal) :
    (analyzeDesign s c1 p1).map DesignAnalysis.core
      = (analyzeDesign s c2 p2).map DesignAnalysis.core := by
  unfold analyzeDesign
  cases h : analyzeColors s.design.colors <;>
    simp [h, Except.map, bind, Except.bind, pure, Except.pure, DesignAnalysis.core]

/-- C8: base template selection is a binary function of the layout structure
flags: with both the header flag and the footer flag true the selected base
template is `modern`, and for every other combination it is `minimal`. -/
theorem selectBaseTemplate_binary (a : AnalysisInput) (l : LayoutAnalysis)
    (h : a.layout = some l) :
    (l.struct.header = true ∧ l.struct.footer = true →
      selectBaseTemplate a = Except.ok "modern") ∧
    (¬(l.struct.header = true ∧ l.struct.footer = true) →
      selectBaseTemplate a = Except.ok "minimal") := by
  constructor
  · rintro ⟨hh, hf⟩
    simp [selectBaseTemplate, h, jsGet, bind, Except.bind, hh, hf, pure, Except.pure]
  · intro hc
    cases hh : l.struct.header <;> cases hf : l.struct.footer <;>
      simp_all [selectBaseTemplate, jsGet, bind, Except.bind, pure, Except.pure]

/-- Witness for C8: a header+footer layout selects `modern`, a footerless
layout selects `minimal`. -/
theorem selectBaseTemplate_binary_witness :
    selectBaseTemplate headerFooterInput = Except.ok "modern" ∧
    selectBaseTemplate noFooterInput = Except.ok "minimal" :=
  ⟨(selectBaseTemplate_binary headerFooterInput headerFooterLayout rfl).1 ⟨rfl, rfl⟩,
   (selectBaseTemplate_binary noFooterInput noFooterLayout rfl).2 (by simp [noFooterLayout, analyzeLayout])⟩

/-- C4 (code bug): `createStore` with a template id that resolves in the
catalog always throws: the catalog entries set in `loadTemplates` carry no
`customizations` property, yet the store record's `design.components`
initializer (and, when colors/fonts are not explicitly supplied, the
customizations merge) unconditionally reads `template.customizations.…`.
Here the caller supplies colors, fonts and theme, so the failing read is
exactly `template.customizations.components`. -/
theorem createStore_catalog_template_throws :
    createStore 0 "user-1" (some "modern") fullCustomizations sampleStoreInfo
      = Except.error "TypeError: Cannot read properties of undefined" := rfl

/-- C1 (counterexample): `analyzeDesign` does raise on some inputs: a
collected color `#abc` passes through `rgbToHex` unchanged, `hexToRgb`
rejects it (not six hex digits), and `categorizeColor` then dereferences the
`null` result, so the whole analysis call throws a `TypeError`. -/
theorem analyzeDesign_throws_on_short_hex :
    analyzeDesign shortHexSite (Except.error "service unavailable") (fun _ => none)
      = Except.error "TypeError: Cannot read properties of null" := rfl

/-- C2 (counterexample): the selector priority is not microdata-first.  On a
DOM holding one element matched only by `[itemtype*="Product"]` and one
matched only by `.product`, the source extracts the `.product` element, while
the claimed microdata-first order would extract the microdata element. -/
theorem extractProducts_not_microdata_first :
    extractProducts mixedSelectorsDom
        = [{ name := "Class Product", price := "$2", image := none, link := none }] ∧
    claimOrderExtractProducts mixedSelectorsDom
        = [{ name := "Microdata Product", price := "$1", image := none, link := none }] ∧
    extractProducts mixedSelectorsDom ≠ claimOrderExtractProducts mixedSelectorsDom := by
  refine ⟨rfl, rfl, ?_⟩
  decide

/-- C7: font classification is a pure function of keyword membership, with
the cases in the claim's order: a name containing a serif keyword (Times,
Georgia, Garamond, Serif) classifies as `serif` with fallback
`Georgia, serif`; otherwise a name containing a monospace keyword (Courier,
Monaco, Consolas, Monospace) classifies as `monospace` with fallback
`Courier New, monospace`; every other name classifies as `sans-serif` with
fallback `Arial, sans-serif`; in particular `Times New Roman` is serif and
`Consolas` is monospace. -/
theorem categorizeFontFamily_keyword_cases (font : String) :
    (serifKeywords.any (fun k => jsIncludes font k) = true →
      categorizeFontFamily font = "serif" ∧ getFontFallback font = "Georgia, serif") ∧
    (serifKeywords.any (fun k => jsIncludes font k) = false →
      monospaceKeywords.any (fun k => jsIncludes font k) = true →
      categorizeFontFamily font = "monospace" ∧
        getFontFallback font = "Courier New, monospace") ∧
    (serifKeywords.any (fun k => jsIncludes font k) = false →
      monospaceKeywords.any (fun k => jsIncludes font k) = false →
      categorizeFontFamily font = "sans-serif" ∧
        getFontFallback font = "Arial, sans-serif") ∧
    categorizeFontFamily "Times New Roman" = "serif" ∧
    categorizeFontFamily "Consolas" = "monospace" := by
  refine ⟨?_, ?_, ?_, by decide, by decide⟩
  · intro hs
    have hc : categorizeFontFamily font = "serif" := by
      simp [categorizeFontFamily, hs]
    refine ⟨hc, ?_⟩
    unfold getFontFallback
    rw [hc]
    rfl
  · intro hs hm
    have hc : categorizeFontFamily font = "monospace" := by
      simp [categorizeFontFamily, hs, hm]
    refine ⟨hc, ?_⟩
    unfold getFontFallback
    rw [hc]
    rfl
  · intro hs hm
    have hc : categorizeFontFamily font = "sans-serif" := by
      simp [categorizeFontFamily, hs, hm]
    refine ⟨hc, ?_⟩
    unfold getFontFallback
    rw [hc]
    rfl

/-- Witness for C7: one concrete font name per keyword case. -/
theorem categorizeFontFamily_keyword_cases_witness :
    (categorizeFontFamily "Times New Roman" = "serif" ∧
      getFontFallback "Times New Roman" = "Georgia, serif") ∧
    (categorizeFontFamily "Consolas" = "monospace" ∧
      getFontFallback "Consolas" = "Courier New, monospace") ∧
    (categorizeFontFamily "Helvetica" = "sans-serif" ∧
      getFontFallback "Helvetica" = "Arial, sans-serif") :=
  ⟨(categorizeFontFamily_keyword_cases "Times New Roman").1 (by decide),
   (categorizeFontFamily_keyword_cases "Consolas").2.1 (by decide) (by decide),
   (categorizeFontFamily_keyword_cases "Helvetica").2.2.1 (by decide) (by decide)⟩

/-- C9: the selected component list contains a product-grid entry (carrying
`hasPrices`/`hasImages`) iff the product count is positive, a navigation
entry iff the layout reports navigation, and always ends with the search
entry followed by the cart entry; with products present and navigation
absent it is exactly `[product-grid, search, cart]`. -/
theorem selectComponents_ordered (a : AnalysisInput) (l : LayoutAnalysis)
    (h : a.layout = some l) :
    ∃ comps, selectComponents a = Except.ok comps ∧
      ((∃ cols sp si, Component.productGrid cols sp si ∈ comps) ↔
        (∃ p, a.products = some p ∧ p.count > 0)) ∧
      (∀ p, a.products = some p → p.count > 0 →
        Component.productGrid 4 p.hasPrices p.hasImages ∈ comps) ∧
      ((∃ st pos, Component.navigation st pos ∈ comps) ↔ l.struct.navigation = true) ∧
      (∃ pre, comps = pre ++ [Component.search "header" "inline", Component.cart "header" "icon"]) ∧
      (∀ p, a.products = some p → p.count > 0 → l.struct.navigation = false →
        comps = [Component.productGrid 4 p.hasPrices p.hasImages,
                 Component.search "header" "inline", Component.cart "header" "icon"]) := by
  rcases hp : a.products with _ | p
  · cases hn : l.struct.navigation
    · refine ⟨[Component.search "header" "inline", Component.cart "header" "icon"],
        by simp [selectComponents, h, hp, hn, jsGet, bind, Except.bind, pure, Except.pure],
        ?_, ?_, ?_, ⟨[], rfl⟩, ?_⟩
      · simp
      · simp [hp]
      · simp [hn]
      · simp [hp]
    · refine ⟨[Component.navigation "horizontal" "header",
        Component.search "header" "inline", Component.cart "header" "icon"],
        by simp [selectComponents, h, hp, hn, jsGet, bind, Except.bind, pure, Except.pure],
        ?_, ?_, ?_, ⟨[Component.navigation "horizontal" "header"], rfl⟩, ?_⟩
      · simp
      · simp [hp]
      · simp
      · simp [hp]
  · rcases Nat.eq_zero_or_pos p.count with hc | hc
    · cases hn : l.struct.navigation
      · refine ⟨[Component.search "header" "inline", Component.cart "header" "icon"],
          by simp [selectComponents, h, hp, hc, hn, jsGet, bind, Except.bind, pure, Except.pure],
          ?_, ?_, ?_, ⟨[], rfl⟩, ?_⟩
        · simp [hp, hc]
        · simp [hp, hc]
        · simp [hn]
        · simp [hp, hc]
      · refine ⟨[Component.navigation "horizontal" "header",
          Component.search "header" "inline", Component.cart "header" "icon"],
          by simp [selectComponents, h, hp, hc, hn, jsGet, bind, Except.bind, pure, Except.pure],
          ?_, ?_, ?_, ⟨[Component.navigation "horizontal" "header"], rfl⟩, ?_⟩
        · simp [hp, hc]
        · simp [hp, hc]
        · simp
        · simp [hp, hc]
    · cases hn : l.struct.navigation
      · refine ⟨[Component.productGrid 4 p.hasPrices p.hasImages,
          Component.search "header" "inline", Component.cart "header" "icon"],
          by simp [selectComponents, h, hp, hc, hn, jsGet, bind, Except.bind, pure, Except.pure],
          ?_, ?_, ?_, ⟨[Component.productGrid 4 p.hasPrices p.hasImages], rfl⟩, ?_⟩
        · simp [hc]
        · intro q hq hq2
          cases hq
          simp
        · simp [hn]
        · intro q hq hq2 hq3
          cases hq
          rfl
      · refine ⟨[Component.productGrid 4 p.hasPrices p.hasImages,
          Component.navigation "horizontal" "header",
          Component.search "header" "inline", Component.cart "header" "icon"],
          by simp [selectComponents, h, hp, hc, hn, jsGet, bind, Except.bind, pure, Except.pure],
          ?_, ?_, ?_, ⟨[Component.productGrid 4 p.hasPrices p.hasImages,
            Component.navigation "horizontal" "header"], rfl⟩, ?_⟩
        · simp [hp, hc]
        · intro q hq hq2
          cases hq
          simp
        · simp
        · simp [hn]

/-- Witness for C9: with three products and no navigation the component list
is exactly product-grid, search, cart. -/
theorem selectComponents_ordered_witness :
    selectComponents gridNoNavInput = Except.ok
      [Component.productGrid 4 true false,
       Component.search "header" "inline", Component.cart "header" "icon"] := by
  obtain ⟨comps, hcomps, -, -, -, -, hlast⟩ :=
    selectComponents_ordered gridNoNavInput headerFooterLayout rfl
  have he := hlast sampleProductsSummary rfl (by decide) rfl
  rw [hcomps, he]
  rfl

/-- Helper: `categorizeColor` succeeds exactly when `hexToRgb` produced a
value (each brightness branch returns normally). -/
theorem categorizeColor_ok_of_isSome {hex : String}
    (h : (hexToRgb hex).isSome = true) : ∃ u, categorizeColor hex = Except.ok u := by
  rcases ho : hexToRgb hex with _ | rgb
  · rw [ho] at h
    simp at h
  · unfold categorizeColor
    rw [ho]
    dsimp only
    split_ifs <;> exact ⟨_, rfl⟩

/-- Helper: mapping `processColor` over a list of colors whose normalized
form decodes as 6-digit hex never throws. -/
theorem mapM_processColor_ok : ∀ colors : List String,
    (∀ c ∈ colors, (hexToRgb (rgbToHex c)).isSome = true) →
    ∃ l, colors.mapM processColor = Except.ok l := by
  intro colors
  induction colors with
  | nil => exact fun _ => ⟨[], rfl⟩
  | cons c cs ih =>
    intro h
    obtain ⟨u, hu⟩ := categorizeColor_ok_of_isSome (h c (List.mem_cons_self c cs))
    obtain ⟨l, hl⟩ := ih (fun x hx => h x (List.mem_cons_of_mem c hx))
    refine ⟨{ original := c, hex := rgbToHex c, usage := u } :: l, ?_⟩
    have hl2 : List.mapM.loop processColor cs [] = Except.ok l := hl
    rw [List.mapM_cons]
    simp [processColor, hu, hl, hl2, bind, Except.bind, pure, Except.pure]

/-- C1 (amended): `analyzeDesign` returns a `DesignAnalysis` whenever every
collected color normalizes to a parseable 6-digit hex string (it can throw
otherwise, see the counterexample), and its sub-steps degrade to defaults:
an empty color list yields primary `#000000`, secondary `#666666`, accent
`#0066cc`, and an empty font list makes both heading and body the default
Arial/sans-serif entry. -/
theorem analyzeDesign_degrades_when_colors_parseable (s : ScrapedSite)
    (completion : Except String String) (jsonParse : String → Option JsonVal)
    (h : ∀ c ∈ s.design.colors, (hexToRgb (rgbToHex c)).isSome = true) :
    ∃ a, analyzeDesign s completion jsonParse = Except.ok a ∧
      (s.design.colors = [] →
        a.colors.primary = "#000000" ∧ a.colors.secondary = "#666666" ∧
          a.colors.accent = "#0066cc") ∧
      (s.design.fonts = [] →
        a.typography.heading = defaultFontEntry ∧ a.typography.body = defaultFontEntry) := by
  obtain ⟨l, hl⟩ := mapM_processColor_ok s.design.colors h
  refine ⟨⟨⟨jsOrString ((l.get? 0).map ProcessedColor.hex) "#000000",
            jsOrString ((l.get? 1).map ProcessedColor.hex) "#666666",
            jsOrString ((l.get? 2).map ProcessedColor.hex) "#0066cc", l⟩,
           analyzeTypography s.design.fonts,
           analyzeLayout s.design.layout,
           analyzeProductStructure s.products,
           getAIRecommendations completion jsonParse⟩, ?_, ?_, ?_⟩
  · have hl2 : List.mapM.loop processColor s.design.colors [] = Except.ok l := hl
    simp [analyzeDesign, analyzeColors, hl, hl2, bind, Except.bind, pure, Except.pure]
  · intro hempty
    rw [hempty] at hl
    simp only [List.mapM_nil] at hl
    have hnil : l = [] := by
      cases hl
      rfl
    subst hnil
    exact ⟨rfl, rfl, rfl⟩
  · intro hfonts
    rw [hfonts]
    exact ⟨rfl, rfl⟩

/-- Witness for C1 (amended): the empty-signals site takes all the defaults. -/
theorem analyzeDesign_degrades_witness :
    ∃ a, analyzeDesign emptySignalsSite (Except.error "offline") (fun _ => none) = Except.ok a ∧
      (emptySignalsSite.design.colors = [] →
        a.colors.primary = "#000000" ∧ a.colors.secondary = "#666666" ∧
          a.colors.accent = "#0066cc") ∧
      (emptySignalsSite.design.fonts = [] →
        a.typography.heading = defaultFontEntry ∧ a.typography.body = defaultFontEntry) :=
  analyzeDesign_degrades_when_colors_parseable emptySignalsSite (Except.error "offline")
    (fun _ => none) (by intro c hc; exact absurd hc (by simp [emptySignalsSite]))

/-- Helper for C2: behaviour of the selector loop on an arbitrary selector
list: the first selector with a non-empty match set determines the result
exclusively, no selector matching yields `[]`, and at most 10 products are
produced. -/
theorem extractLoop_first_match (dom : List DomElement) :
    ∀ sels : List Selector,
      (∀ sel, sels.find? (fun s => dom.any (fun el => matchesSelector el s)) = some sel →
        extractLoop dom sels =
          ((dom.filter (fun el => matchesSelector el sel)).take 10).map extractFields) ∧
      (sels.find? (fun s => dom.any (fun el => matchesSelector el s)) = none →
        extractLoop dom sels = []) ∧
      (extractLoop dom sels).length ≤ 10 := by
  intro sels
  induction sels with
  | nil =>
    refine ⟨?_, fun _ => rfl, by simp [extractLoop]⟩
    intro sel hsel
    simp at hsel
  | cons s rest ih =>
    have hiff : 0 < ((dom.filter (fun el => matchesSelector el s)).take 10).length ↔
        dom.any (fun el => matchesSelector el s) = true := by
      rw [List.length_take, Nat.lt_min]
      simp [List.length_pos, Ne, List.filter_eq_nil_iff, List.any_eq_true]
    cases hany : dom.any (fun el => matchesSelector el s)
    · have hnpos : ¬ 0 < ((dom.filter (fun el => matchesSelector el s)).take 10).length := by
        rw [hiff, hany]
        simp
      refine ⟨?_, ?_, ?_⟩
      · intro sel hsel
        rw [List.find?_cons, hany] at hsel
        rw [extractLoop]
        simp only [if_neg hnpos]
        exact (ih.1 sel hsel)
      · intro hnone
        rw [List.find?_cons, hany] at hnone
        rw [extractLoop]
        simp only [if_neg hnpos]
        exact ih.2.1 hnone
      · rw [extractLoop]
        simp only [if_neg hnpos]
        exact ih.2.2
    · have hpos : 0 < ((dom.filter (fun el => matchesSelector el s)).take 10).length :=
        hiff.mpr hany
      refine ⟨?_, ?_, ?_⟩
      · intro sel hsel
        rw [List.find?_cons, hany] at hsel
        cases hsel
        rw [extractLoop]
        simp only [if_pos hpos]
      · intro hnone
        rw [List.find?_cons, hany] at hnone
        cases hnone
      · rw [extractLoop]
        simp only [if_pos hpos]
        simp [List.length_take]

/-- C2 (amended): product extraction tries the fixed ordered selector list
`.product`, `.product-item`, `.product-card`, `[itemtype*="Product"]`,
`[data-product]` (microdata fourth, not first); the first pattern yielding
at least one match is used exclusively with no merging across patterns, and
at most 10 matched candidate products are kept. -/
theorem extractProducts_first_selector_wins (dom : List DomElement) :
    (∀ sel, productSelectors.find? (fun s => dom.any (fun el => matchesSelector el s)) = some sel →
      extractProducts dom =
        ((dom.filter (fun el => matchesSelector el sel)).take 10).map extractFields) ∧
    (productSelectors.find? (fun s => dom.any (fun el => matchesSelector el s)) = none →
      extractProducts dom = []) ∧
    (extractProducts dom).length ≤ 10 :=
  extractLoop_first_match dom productSelectors

/-- Witness for C2 (amended): on a DOM whose only match is `.product-card`,
that selector's matches are extracted. -/
theorem extractProducts_first_selector_wins_witness :
    extractProducts cardOnlyDom =
      [{ name := "Card Product", price := "$3", image := some "/img.png", link := some "/p/3" }] :=
  ((extractProducts_first_selector_wins cardOnlyDom).1 Selector.productCard (by decide)).trans
    (by decide)

/-- C10: with an empty scraped font list, the typography defaults used for
heading and body are exactly the Arial entry without a `fallback` property,
and the generated stylesheet's `--font-heading` and `--font-body` custom
properties therefore render as the string `Arial, undefined` instead of a
valid fallback stack. -/
theorem emptyFontList_css_renders_undefined (col : ColorAnalysis)
    (lay : Option LayoutAnalysis) (pr : Option ProductsAnalysis)
    (f : Option Typography) (th : Option String) :
    (analyzeTypography []).heading = defaultFontEntry ∧
    (analyzeTypography []).body = defaultFontEntry ∧
    defaultFontEntry.fallback = none ∧
    ∃ pre mid post,
      generateCSS
          { colors := some col, typography := some (analyzeTypography [])
            layout := lay, products := pr, fonts := f, theme := th }
        = Except.ok (pre ++ "--font-heading: Arial, undefined;" ++ mid
            ++ "--font-body: Arial, undefined;" ++ post) := by
  refine ⟨rfl, rfl, rfl,
    cssPart0 ++ col.primary ++ cssPart1 ++ col.secondary ++ cssPart2 ++ col.accent ++ cssPart3Pre,
    "\n        ", cssPart7Tail, ?_⟩
  have h3 : cssPart3 = cssPart3Pre ++ "--font-heading: " := rfl
  have h5 : cssPart5 = ";" ++ "\n        " ++ "--font-body: " := rfl
  have h7 : cssPart7 = ";" ++ cssPart7Tail := rfl
  have h4 : cssPart4 = ", " := rfl
  have h6 : cssPart6 = ", " := rfl
  have hh : ("--font-heading: Arial, undefined;" : String)
      = "--font-heading: " ++ "Arial" ++ ", " ++ "undefined" ++ ";" := rfl
  have hb : ("--font-body: Arial, undefined;" : String)
      = "--font-body: " ++ "Arial" ++ ", " ++ "undefined" ++ ";" := rfl
  simp only [generateCSS, cssTemplate, jsGet, bind, Except.bind, pure, Except.pure,
    analyzeTypography, jsOrObj, Option.getD, defaultFontEntry, jsUndefOr, List.map_nil,
    List.get?]
  rw [h3, h5, h7, h4, h6, hh, hb]
  simp only [String.append_assoc]

/-- Helper: splitting `takeWhile`/`dropWhile` at the first character outside
the class. -/
theorem takeWhile_all_append {p : Char → Bool} :
    ∀ (l : List Char) (c : Char) (t : List Char), (∀ x ∈ l, p x = true) → p c = false →
      ((l ++ c :: t).takeWhile p = l ∧ (l ++ c :: t).dropWhile p = c :: t) := by
  intro l
  induction l with
  | nil =>
    intro c t _ hc
    simp [List.takeWhile_cons, List.dropWhile_cons, hc]
  | cons a l ih =>
    intro c t hall hc
    have ha := hall a (List.mem_cons_self a l)
    have hrest := ih c t (fun x hx => hall x (List.mem_cons_of_mem a hx)) hc
    simp [List.takeWhile_cons, List.dropWhile_cons, ha, hrest.1, hrest.2]

/-- Helper: the `rgba?\(` pattern matches at the head of
`rgb(<digits>, <digits>, <digits>)` and captures the three digit groups. -/
theorem matchRgbaAt_digits (d1 d2 d3 : List Char)
    (h1 : ∀ c ∈ d1, isDigitChar c = true) (h1n : d1 ≠ [])
    (h2 : ∀ c ∈ d2, isDigitChar c = true) (h2n : d2 ≠ [])
    (h3 : ∀ c ∈ d3, isDigitChar c = true) (h3n : d3 ≠ []) :
    matchRgbaAt ('r' :: 'g' :: 'b' :: '(' ::
        (d1 ++ ',' :: ' ' :: (d2 ++ ',' :: ' ' :: (d3 ++ [')'])))) = some (d1, d2, d3) := by
  obtain ⟨c2, d2t, rfl⟩ := List.exists_cons_of_ne_nil h2n
  obtain ⟨c3, d3t, rfl⟩ := List.exists_cons_of_ne_nil h3n
  have hc2 : isDigitChar c2 = true := h2 c2 (List.mem_cons_self _ _)
  have hc3 : isDigitChar c3 = true := h3 c3 (List.mem_cons_self _ _)
  have hcomma : isDigitChar ',' = false := by decide
  have hrp : isDigitChar ')' = false := by decide
  have t1 := takeWhile_all_append d1 ','
    (' ' :: ((c2 :: d2t) ++ ',' :: ' ' :: ((c3 :: d3t) ++ [')']))) h1 hcomma
  have t2 := takeWhile_all_append (c2 :: d2t) ',' (' ' :: ((c3 :: d3t) ++ [')'])) h2 hcomma
  have t3 := takeWhile_all_append (c3 :: d3t) ')' [] h3 hrp
  simp only [List.cons_append] at t1 t2 t3
  have s2 : isJsSpace c2 = false := by
    simp [isDigitChar] at hc2
    simp [isJsSpace]
    omega
  have s3 : isJsSpace c3 = false := by
    simp [isDigitChar] at hc3
    simp [isJsSpace]
    omega
  have e1 : d1.isEmpty = false := by
    cases d1
    · exact absurd rfl h1n
    · rfl
  have sp : isJsSpace ' ' = true := rfl
  have s2' : ¬(isJsSpace c2 = true) := by
    rw [s2]
    exact Bool.false_ne_true
  have s3' : ¬(isJsSpace c3 = true) := by
    rw [s3]
    exact Bool.false_ne_true
  have e2 : (c2 :: d2t).isEmpty = false := rfl
  have e3 : (c3 :: d3t).isEmpty = false := rfl
  have ha : ('(' = 'a') = False := by simp
  rw [matchRgbaAt]
  simp only [List.cons_append, List.head?_cons, Option.some.injEq, ha, if_false,
    t1.1, t1.2, e1, Bool.false_eq_true, List.dropWhile_cons_of_pos sp,
    List.dropWhile_cons_of_neg s2', t2.1, t2.2, e2,
    List.dropWhile_cons_of_neg s3', t3.1, e3]

/-- Helper: an unanchored search succeeds immediately when the pattern
matches at position 0. -/
theorem findRgbaMatch_head {cs : List Char} {res : List Char × List Char × List Char}
    (hne : cs ≠ []) (h : matchRgbaAt cs = some res) : findRgbaMatch cs = some res := by
  obtain ⟨c, t, rfl⟩ := List.exists_cons_of_ne_nil hne
  rw [findRgbaMatch, h]

/-- Helper (by evaluation): `Nat.repr` of a channel value is a non-empty
digit string that `parseInt` reads back. -/
theorem natReprDigits : ∀ n, n < 256 →
    ((Nat.repr n).data ≠ [] ∧ (∀ c ∈ (Nat.repr n).data, isDigitChar c = true) ∧
      decVal (Nat.repr n).data = n) := by decide

/-- Helper (by evaluation): the padded hex rendering of a byte has exactly
two characters. -/
theorem jsHexPadLen : ∀ n, n < 256 → (jsHexPad n).length = 2 := by decide

/-- Helper (by evaluation): the padded hex rendering of a byte is lowercase
hex. -/
theorem jsHexPadLower : ∀ n, n < 256 → (jsHexPad n).all isLowerHexDigit = true := by decide

/-- Helper (by evaluation): decoding the padded hex rendering of a byte
recovers the byte. -/
theorem jsHexPadDecode : ∀ n, n < 256 → hexPairDecode (jsHexPad n) = some n := by decide

/-- Helper: a lowercase hex digit is accepted by the case-insensitive class. -/
theorem lowerHex_CI {c : Char} (h : isLowerHexDigit c = true) : isHexDigitCI c = true := by
  have hdef : isHexDigitCI c = (isLowerHexDigit c || isHexUpper c) := rfl
  rw [hdef, h]
  rfl

/-- Helper: `rgbToHex` on `rgb(r, g, b)` yields `#` followed by the three
padded hex bytes. -/
theorem rgbToHex_mkRgbString (r g b : Nat) (hr : r < 256) (hg : g < 256) (hb : b < 256) :
    rgbToHex (mkRgbString r g b) =
      "#" ++ (jsHexPad r).asString ++ (jsHexPad g).asString ++ (jsHexPad b).asString := by
  obtain ⟨hn1, hd1, hv1⟩ := natReprDigits r hr
  obtain ⟨hn2, hd2, hv2⟩ := natReprDigits g hg
  obtain ⟨hn3, hd3, hv3⟩ := natReprDigits b hb
  have hdata : (mkRgbString r g b).data =
      'r' :: 'g' :: 'b' :: '(' :: ((Nat.repr r).data ++ ',' :: ' ' ::
        ((Nat.repr g).data ++ ',' :: ' ' :: ((Nat.repr b).data ++ [')']))) := by
    simp [mkRgbString, String.data_append]
  have hmatch := matchRgbaAt_digits (Nat.repr r).data (Nat.repr g).data (Nat.repr b).data
    hd1 hn1 hd2 hn2 hd3 hn3
  rw [rgbToHex, hdata]
  rw [findRgbaMatch_head (by simp) hmatch]
  simp only [List.head?_cons, Option.some.injEq]
  rw [if_neg (by decide : ¬('r' = '#'))]
  rw [hv1, hv2, hv3]

/-- C6: for every RGB triple with channels in 0..255, `rgbToHex` applied to
the computed-style string `rgb(r, g, b)` produces a `#`-prefixed 6-digit
lowercase hex string whose hex decoding (`hexToRgb`) recovers exactly
`(r, g, b)`; and on any string already starting with `#` it returns its
argument unchanged. -/
theorem normalizeColor_roundtrip_and_hex_idempotent :
    (∀ r g b : Nat, r < 256 → g < 256 → b < 256 →
      isHexColorString (rgbToHex (mkRgbString r g b)) = true ∧
      hexToRgb (rgbToHex (mkRgbString r g b)) = some { r := r, g := g, b := b }) ∧
    (∀ s : String, s.data.head? = some '#' → rgbToHex s = s) := by
  constructor
  · intro r g b hr hg hb
    rw [rgbToHex_mkRgbString r g b hr hg hb]
    obtain ⟨a1, a2, hpa⟩ := List.length_eq_two.mp (jsHexPadLen r hr)
    obtain ⟨b1, b2, hpb⟩ := List.length_eq_two.mp (jsHexPadLen g hg)
    obtain ⟨c1, c2, hpc⟩ := List.length_eq_two.mp (jsHexPadLen b hb)
    have la := jsHexPadLower r hr
    have lb := jsHexPadLower g hg
    have lc := jsHexPadLower b hb
    rw [hpa] at la
    rw [hpb] at lb
    rw [hpc] at lc
    simp only [List.all_cons, List.all_nil, Bool.and_true, Bool.and_eq_true] at la lb lc
    have da := jsHexPadDecode r hr
    have db := jsHexPadDecode g hg
    have dc := jsHexPadDecode b hb
    rw [hpa] at da
    rw [hpb] at db
    rw [hpc] at dc
    have da' : hexPairVal a1 a2 = r := by simpa [hexPairDecode] using da
    have db' : hexPairVal b1 b2 = g := by simpa [hexPairDecode] using db
    have dc' : hexPairVal c1 c2 = b := by simpa [hexPairDecode] using dc
    have hasL : ∀ l : List Char, (List.asString l).data = l := fun l => rfl
    have hdata : ("#" ++ (jsHexPad r).asString ++ (jsHexPad g).asString
        ++ (jsHexPad b).asString).data = ['#', a1, a2, b1, b2, c1, c2] := by
      simp [String.data_append, hasL, hpa, hpb, hpc]
    constructor
    · rw [isHexColorString.eq_def, hdata]
      simp [la.1, la.2, lb.1, lb.2, lc.1, lc.2]
    · rw [hexToRgb.eq_def, hdata]
      simp [List.head?_cons, lowerHex_CI la.1, lowerHex_CI la.2, lowerHex_CI lb.1,
        lowerHex_CI lb.2, lowerHex_CI lc.1, lowerHex_CI lc.2, da', db', dc']
  · intro s hs
    rw [rgbToHex, if_pos hs]

/-- Witness for C6: the triple (255, 102, 0) round-trips and `#ff6600` is a
fixed point. -/
theorem normalizeColor_roundtrip_witness :
    isHexColorString (rgbToHex (mkRgbString 255 102 0)) = true ∧
    hexToRgb (rgbToHex (mkRgbString 255 102 0)) = some { r := 255, g := 102, b := 0 } ∧
    rgbToHex "#ff6600" = "#ff6600" :=
  ⟨(normalizeColor_roundtrip_and_hex_idempotent.1 255 102 0
      (by decide) (by decide) (by decide)).1,
   (normalizeColor_roundtrip_and_hex_idempotent.1 255 102 0
      (by decide) (by decide) (by decide)).2,
   normalizeColor_roundtrip_and_hex_idempotent.2 "#ff6600" rfl⟩

end Snapshelf
